import Mathlib

/-!
Verification development for the `svg-timeline` Go library (package
`svgtimeline`): a shallow embedding of its data model, geometry resolver,
layout/tick generation, XML escaping, and the CFG-file parser, together
with theorems settling the specification claims.

Modelling conventions:
* `time.Duration` (int64 nanoseconds) is embedded as `Int`.
* `time.Time` is embedded as `Int`: the value `0` stands for Go's zero
  `time.Time` (the "unset" sentinel checked with `IsZero`), any other value
  is a set instant measured in nanoseconds from that zero instant, so
  Go's `Before` is `<` and `Sub` is subtraction.  (Go's saturating `Sub`
  overflow is not modelled; no claim depends on it.)
* `float64` pixel arithmetic is embedded as exact rational arithmetic
  over `ℚ`; the claims under scrutiny are about the formulas, not about
  rounding of IEEE floats.
* Go's integer division on `time.Duration` truncates toward zero; Lean's
  `Int` division is Euclidean.  The two agree on nonnegative operands,
  which is the only way the source divides (`maxDuration / numTicks`
  under guards `maxDuration > 0`, `numTicks > 0`).
* A Go runtime panic (nil dereference, out-of-range slice index) is
  embedded as the `none` / `.crash` case of an `Option` / result type.
-/

namespace SvgTimeline

/-- Event kinds, from `type EventType int` with the two constants
`EventTypeTask` and `EventTypeEra` (timeline.go). -/
inductive EventType
  | task
  | era
  deriving DecidableEq, Repr

/-- From `type Event struct` in timeline.go.  Go's `Type` field is spelled
`Type'` because `Type` is reserved in Lean; `Duration` is nanoseconds;
`Time = 0` is Go's zero `time.Time` (unset). -/
structure Event where
  Type' : EventType := .task
  ID : String := ""
  Class : String := ""
  Text : String := ""
  Title : String := ""
  Duration : Int := 0
  Time : Int := 0
  deriving DecidableEq, Repr

/-- From `type Row struct` in timeline.go. -/
structure Row where
  height : Int := 0
  separatorHeight : Int := 0
  events : List Event := []
  deriving DecidableEq, Repr

/-- From `type Timeline struct` in timeline.go: the rows plus the
configuration fields that the geometry depends on.  The purely textual
fields `width`/`height`/`style`/`id` of the SVG surface do not affect any
claim's geometry and are kept only where a claim needs them (`id` is kept
for completeness).  Defaults are those of `NewTimeline`. -/
structure Timeline where
  rows : List Row := []
  id : String := ""
  precision : ℚ := 1000
  numTicks : Int := 8
  tickHeight : Int := 5
  marginTop : Int := 15
  marginBottom : Int := 15
  marginLeft : ℚ := 10
  marginRight : ℚ := 30
  deriving DecidableEq, Repr

/-- `NewTimeline` (timeline.go): all defaults. -/
def NewTimeline : Timeline := {}

/-- `Row.StartTime` (timeline.go): earliest nonzero `Time` among the row's
events, `0` (zero time) if none; zero times are skipped with `continue`. -/
def Row.StartTime (r : Row) : Int :=
  r.events.foldl
    (fun earliest e =>
      if e.Time = 0 then earliest
      else if earliest = 0 ∨ e.Time < earliest then e.Time else earliest)
    0

/-- `Timeline.StartTime` (timeline.go): folds `Row.StartTime` over the rows.
Faithful to the source, including the absence of a zero-skip: when a row
has no timed events its `Row.StartTime` is the zero time `0`, and
`rowStartTime.Before(earliest)` then holds, so the accumulator is reset
to the zero sentinel.  (`Row.StartTime` skips zero times; this function
does not.) -/
def Timeline.StartTime (t : Timeline) : Int :=
  t.rows.foldl
    (fun earliest r =>
      let rowStartTime := r.StartTime
      if earliest = 0 ∨ rowStartTime < earliest then rowStartTime else earliest)
    0

/-- `Row.TotalDuration` (timeline.go): running total of durations, and the
maximum of `(Time - earliest) + Duration` over events where both the
passed-in `earliest` and the event's `Time` are nonzero; result is the
max of the two accumulators. -/
def Row.TotalDuration (r : Row) (earliest : Int) : Int :=
  let p :
      Int × Int :=
    r.events.foldl
      (fun acc e =>
        let total := acc.1 + e.Duration
        let maxByTime :=
          if ¬earliest = 0 ∧ ¬e.Time = 0 then
            let byTime := e.Time - earliest + e.Duration
            if byTime > acc.2 then byTime else acc.2
          else acc.2
        (total, maxByTime))
      (0, 0)
  max p.1 p.2

/-- `Timeline.MaxDuration` (timeline.go): maximum `Row.TotalDuration`
(evaluated at `Timeline.StartTime`) over all rows, starting from `0`. -/
def Timeline.MaxDuration (t : Timeline) : Int :=
  t.rows.foldl
    (fun m r =>
      let duration := r.TotalDuration t.StartTime
      if duration > m then duration else m)
    0

/-- `Timeline.TotalRowHeight` (timeline.go): sum of row heights plus
separator heights. -/
def Timeline.TotalRowHeight (t : Timeline) : Int :=
  t.rows.foldl (fun total r => total + r.height + r.separatorHeight) 0

/-- `Timeline.GetLastRow` (timeline.go): last row or nil. -/
def Timeline.GetLastRow (t : Timeline) : Option Row :=
  t.rows.getLast?

/-- Go slice indexing `xs[i]`: panics (modelled as `none`) unless
`0 ≤ i < len(xs)`. -/
def goIndex {α : Type} (xs : List α) (i : Int) : Option α :=
  if h : 0 ≤ i ∧ i < (xs.length : Int) then
    some (xs.get ⟨i.toNat, by omega⟩)
  else none

/-- `Timeline.GetRowByIndex` (timeline.go lines 152-157 and svgtimeline.go
lines 583-589): `if i >= len(t.rows) return nil; return t.rows[i]`.
The outer `none` models the runtime panic of `t.rows[i]`; `some none`
models returning nil; `some (some r)` models returning the row. -/
def Timeline.GetRowByIndex (t : Timeline) (i : Int) : Option (Option Row) :=
  if (t.rows.length : Int) ≤ i then some none
  else (goIndex t.rows i).map some

/-- Error message of `setup` for a negative event duration (timeline.go). -/
def negativeDurationMsg : String := "duration of events cannot be negative"

/-- Error message of `setup` for mixed set/unset `Time` (timeline.go). -/
def inconsistentTimeMsg : String :=
  "when \"Time\" is set on any Event, it must be set on all of them"

/-- Error message of `setup` when no event has a positive duration
(timeline.go). -/
def noPositiveDurationMsg : String := "none of the events has a positive duration"

/-- The inner loop of `Timeline.setup`'s validation (timeline.go lines
308-318) over one row's events: `return` the negative-duration error at the
first event with `Duration < 0`, otherwise accumulate
`(hasTime, hasNoTime, total duration)`. -/
def scanRowEvents : List Event → Bool × Bool × Int → Except String (Bool × Bool × Int)
  | [], acc => Except.ok acc
  | e :: rest, acc =>
    if e.Duration < 0 then Except.error negativeDurationMsg
    else
      let duration := acc.2.2 + e.Duration
      if e.Time = 0 then scanRowEvents rest (acc.1, true, duration)
      else scanRowEvents rest (true, acc.2.1, duration)

/-- The outer loop of `Timeline.setup`'s validation (timeline.go lines
307-319): rows in order, each through `scanRowEvents`; an error aborts
the walk (Go's early `return`). -/
def scanEvents : List Row → Bool × Bool × Int → Except String (Bool × Bool × Int)
  | [], acc => Except.ok acc
  | r :: rest, acc =>
    match scanRowEvents r.events acc with
    | Except.ok acc2 => scanEvents rest acc2
    | Except.error m => Except.error m

/-- The quantities `setup` (timeline.go lines 329-341) derives and stores on
the timeline after validation passes. -/
structure Resolved where
  tickLabelMargin : Int
  maxDuration : Int
  contentHeight : Int
  earliest : Int
  totalHeight : Int
  contentWidth : ℚ
  totalWidth : ℚ
  deriving DecidableEq, Repr

/-- `Timeline.setup` (timeline.go lines 303-343): validation (negative
duration, mixed time mode, zero total duration — in that order) followed by
derivation of the resolved quantities.  The defaulting of the `height`
string attribute is omitted (text-only, no geometric effect). -/
def Timeline.setup (t : Timeline) : Except String Resolved :=
  match scanEvents t.rows (false, false, 0) with
  | Except.error m => Except.error m
  | Except.ok (hasTime, hasNoTime, duration) =>
    if hasTime && hasNoTime then Except.error inconsistentTimeMsg
    else if duration = 0 then Except.error noPositiveDurationMsg
    else
      let tickLabelMargin : Int := 15
      let maxDuration := t.MaxDuration
      let contentHeight := t.TotalRowHeight
      let earliest := t.StartTime
      let totalHeight :=
        contentHeight + t.marginTop + t.marginBottom + t.tickHeight + tickLabelMargin
      let contentWidth := min t.precision (maxDuration : ℚ)
      Except.ok
        { tickLabelMargin, maxDuration, contentHeight, earliest, totalHeight,
          contentWidth, totalWidth := contentWidth + t.marginLeft + t.marginRight }

/-- The geometry of the rectangle emitted for one event by
`Timeline.drawEvent` (timeline.go lines 346-416). -/
structure EvRect where
  x : ℚ
  y : Int
  width : ℚ
  height : Int
  deriving DecidableEq, Repr

/-- `Timeline.drawEvent` (timeline.go lines 346-416), geometry part: given
the resolved quantities, the incoming row cursor `currentDuration`, the
row's vertical offset and height, produce the event rectangle and the
returned cursor.  When `earliest` is nonzero the cursor is overwritten by
`event.Time.Sub(t.earliest)`; at the end the cursor advances by the
duration only when `earliest` is the zero sentinel.  The text/label and
class emission are handled separately where a claim needs them. -/
def drawEventGeom (t : Timeline) (res : Resolved) (e : Event)
    (currentY rowHeight currentDuration : Int) : EvRect × Int :=
  let cur := if ¬res.earliest = 0 then e.Time - res.earliest else currentDuration
  let startX := t.marginLeft + res.contentWidth * (cur : ℚ) / (res.maxDuration : ℚ)
  let eventWidth := res.contentWidth * (e.Duration : ℚ) / (res.maxDuration : ℚ)
  let height :=
    if e.Type' = .era then
      res.totalHeight - currentY - t.marginBottom - t.tickHeight * 3
    else rowHeight
  let ret := if res.earliest = 0 then cur + e.Duration else cur
  ({ x := startX, y := currentY, width := eventWidth, height }, ret)

/-- The row/event walk of `Timeline.Generate` (timeline.go lines 242-256):
`currentY` starts at the top margin and advances by `height +
separatorHeight` per row; the cursor `currentDuration` is reset to `0` at
the start of each row; when `maxDuration ≤ 0` the loop breaks before
drawing anything (the break condition never changes inside the loop, so it
is equivalent to the outer guard used here). -/
def drawRows (t : Timeline) (res : Resolved) : List EvRect :=
  if res.maxDuration ≤ 0 then []
  else
    (t.rows.foldl
      (fun (acc : List EvRect × Int) r =>
        let inner :=
          r.events.foldl
            (fun (acc2 : List EvRect × Int) e =>
              let step := drawEventGeom t res e acc.2 r.height acc2.2
              (acc2.1 ++ [step.1], step.2))
            (acc.1, 0)
        (inner.1, acc.2 + r.height + r.separatorHeight))
      ([], t.marginTop)).1

/-- One tick mark of the axis generator (timeline.go lines 264-289): its
time value, x position, and the top/bottom y coordinates of its line. -/
structure Tick where
  time : Int
  x : ℚ
  topY : Int
  bottomY : Int
  deriving DecidableEq, Repr

/-- The tick loop of `Timeline.Generate` (timeline.go lines 264-289):
under the guard `numTicks > 0 && maxDuration > 0`, ticks `i = 0 .. numTicks`
with `tickDuration := maxDuration / numTicks` (integer division),
`currentDuration := tickDuration * i`,
`x := marginLeft + contentWidth * currentDuration / maxDuration`, and
`topY` pulled up to the top margin exactly when `i = 0` or `i = numTicks`. -/
def drawTicks (t : Timeline) (res : Resolved) : List Tick :=
  let timelineY := t.marginTop + res.contentHeight + t.tickHeight
  if 0 < t.numTicks ∧ 0 < res.maxDuration then
    let tickDuration := res.maxDuration / t.numTicks
    (List.range (t.numTicks.toNat + 1)).map
      (fun (i : Nat) =>
        let currentDuration := tickDuration * (i : Int)
        let x :=
          t.marginLeft + res.contentWidth * (currentDuration : ℚ) / (res.maxDuration : ℚ)
        let topY :=
          if i = 0 ∨ (i : Int) = t.numTicks then t.marginTop
          else timelineY - t.tickHeight
        { time := currentDuration, x, topY, bottomY := timelineY + t.tickHeight })
  else []

/-- `Timeline.Generate` (timeline.go lines 215-298), geometry part: run
`setup`; on failure return the error and no output; on success produce the
event rectangles and the ticks in document order.  (The surrounding XML
serialization through `encoding/xml` is the external document serializer
and is not part of the geometry contract.) -/
def Timeline.Generate (t : Timeline) : Except String (List EvRect × List Tick) :=
  match t.setup with
  | Except.error e => Except.error e
  | Except.ok res => Except.ok (drawRows t res, drawTicks t res)

/-- The `(x, width)` pairs of the rectangles drawn by `Generate`, the part
of the geometry claims C1 and C9 compare; empty on generation failure. -/
def generatedRects (t : Timeline) : List (ℚ × ℚ) :=
  match t.Generate with
  | Except.ok (rs, _) => rs.map (fun r => (r.x, r.width))
  | Except.error _ => []

/-- The ticks emitted by `Generate`; empty on generation failure. -/
def generatedTicks (t : Timeline) : List Tick :=
  match t.Generate with
  | Except.ok (_, ks) => ks
  | Except.error _ => []

/-! ### Claim-side (specification-worded) definitions

The following definitions follow the words of the claims (spec §4.1/§4.3),
not the source; they exist only to be compared against the source-derived
definitions above. -/

/-- Claim C2's origin: "the earliest StartTime across the whole timeline",
taken over the events that set one; `none` when no event sets a time. -/
def claimOrigin (t : Timeline) : Option Int :=
  t.rows.foldl
    (fun acc r =>
      r.events.foldl
        (fun (acc2 : Option Int) (e : Event) =>
          if e.Time = 0 then acc2
          else
            match acc2 with
            | none => some e.Time
            | some m => some (min m e.Time))
        acc)
    (none : Option Int)

/-- Claim C2's row span: "max(sum of its events' Durations, maximum over
its events with an explicit StartTime of (StartTime − origin) + Duration)". -/
def claimRowSpan (origin : Int) (r : Row) : Int :=
  max (r.events.foldl (fun s e => s + e.Duration) 0)
    (r.events.foldl
      (fun m e => if e.Time = 0 then m else max m (e.Time - origin + e.Duration)) 0)

/-- Claim C2's maxSpan: "the maximum of this span over all rows", with the
origin of claim C2. -/
def claimMaxSpan (t : Timeline) : Int :=
  let origin := (claimOrigin t).getD 0
  t.rows.foldl (fun m r => max m (claimRowSpan origin r)) 0

/-- Claim C5's tick times: "the time of tick i equals
maxSpan × i / numTicks", as exact arithmetic. -/
def claimTickTimes (maxSpan numTicks : Int) : List ℚ :=
  (List.range (numTicks.toNat + 1)).map
    (fun i => (maxSpan : ℚ) * (i : ℚ) / (numTicks : ℚ))

/-! ### XML escaping and the string-emission event markup

From svgtimeline.go: `escapeXML` (lines 427-434 / 896-904) and the group
opening emitted by the string-builder `Timeline.drawEvent`
(lines 790-802). -/

/-- One `strings.ReplaceAll` step of `escapeXML`: every target of the
source's five `ReplaceAll` calls is a single character, so the step is a
character-wise substitution. -/
def replaceAllChar (s : String) (target : Char) (repl : String) : String :=
  String.join (s.toList.map (fun c => if c = target then repl else String.mk [c]))

/-- `escapeXML` (svgtimeline.go lines 427-434): the five sequential
`strings.ReplaceAll` calls, ampersand first. -/
def escapeXML (s : String) : String :=
  let s1 := replaceAllChar s '&' ("&amp;")
  let s2 := replaceAllChar s1 '<' ("&lt;")
  let s3 := replaceAllChar s2 '>' ("&gt;")
  let s4 := replaceAllChar s3 '"' ("&quot;")
  replaceAllChar s4 '\'' ("&apos;")

/-- The `<g ...>` opening emitted for an event by the string-builder
`Timeline.drawEvent` (svgtimeline.go lines 790-802): the `id` attribute is
written with the raw `event.ID` (no `escapeXML`), unlike the title and
text of the same function and unlike the timeline's own `id`. -/
def drawEventOpenTag (e : Event) : String :=
  let idAttr := if e.ID = "" then "" else " id=\"" ++ e.ID ++ "\""
  let className :=
    (if e.Type' = .era then "tl-era" else "tl-event") ++
      (if e.Class = "" then "" else " " ++ e.Class)
  "<g" ++ idAttr ++ " class=\"" ++ className ++ "\"" ++ ">\n"

/-- The `<title>` child emitted for an event by the string-builder
`Timeline.drawEvent` (svgtimeline.go lines 804-807): the tooltip IS passed
through `escapeXML`. -/
def drawEventTitleTag (e : Event) : String :=
  if e.Title = "" then "" else "<title>" ++ escapeXML e.Title ++ "</title>"

/-! ### The CFG-file parser

From `GenerateFromCFG` in src/cmd/cli/svgtimeline.go (lines 68-257).  The
input is modelled as the list of lines produced by the line scanner.  The
two Go-stdlib literal parsers `time.ParseDuration` and the layout list of
`parseTime` are abstracted as oracle parameters (`none` = parse failure);
no claim depends on their behaviour. -/

/-- ASCII white space, as trimmed by `strings.TrimSpace` (the Unicode
spaces of the Go version are irrelevant to the claims). -/
def isSpaceChar (c : Char) : Bool :=
  c = ' ' || c = '\t' || c = '\n' || c = '\r'

/-- `strings.TrimSpace`. -/
def goTrimSpace (s : String) : String :=
  String.mk (((s.toList.dropWhile isSpaceChar).reverse.dropWhile isSpaceChar).reverse)

/-- `strings.Split` with a one-character separator (the source only splits
on a single space). -/
def goSplit (s : String) (sep : Char) : List String :=
  (s.toList.foldr
      (fun c acc =>
        match acc with
        | [] => [[c]]
        | h :: t => if c = sep then [] :: h :: t else (c :: h) :: t)
      [[]]).map String.mk

/-- The character-list worker of `strings.Cut` at the first `=`. -/
def cutEqAux : List Char → Option (List Char × List Char)
  | [] => none
  | c :: rest =>
    if c = '=' then some ([], rest)
    else (cutEqAux rest).map (fun p => (c :: p.1, p.2))

/-- `strings.Cut(line, "=")`: the text before and after the first `=`,
or `none` when the line has no `=`. -/
def goCut (s : String) : Option (String × String) :=
  (cutEqAux s.toList).map (fun p => (String.mk p.1, String.mk p.2))

/-- Digit run to number. -/
def digitsToNat : List Char → Nat → Nat
  | [], acc => acc
  | c :: rest, acc => digitsToNat rest (acc * 10 + (c.toNat - ('0').toNat))

/-- `strconv.Atoi`: optional sign followed by a nonempty digit run
(int64 overflow clamping not modelled). -/
def goAtoi (s : String) : Option Int :=
  match s.toList with
  | [] => none
  | '-' :: rest =>
    if rest ≠ [] ∧ rest.all Char.isDigit then some (-(digitsToNat rest 0 : Int)) else none
  | '+' :: rest =>
    if rest ≠ [] ∧ rest.all Char.isDigit then some ((digitsToNat rest 0 : Int)) else none
  | l => if l.all Char.isDigit then some ((digitsToNat l 0 : Int)) else none

/-- `parseIntDefault` (cli lines 248-257): the i-th space-separated part as
an integer, or the default when missing or unparsable. -/
def parseIntDefault (parts : List String) (i : Nat) (dflt : Int) : Int :=
  match parts.get? i with
  | none => dflt
  | some str => (goAtoi str).getD dflt

/-- The four margins array of `GenerateFromCFG` (`[4]int`: top, right,
bottom, left). -/
structure Margins where
  top : Int := 0
  right : Int := 0
  bottom : Int := 0
  left : Int := 0
  deriving DecidableEq, Repr

/-- The parser state threaded through the line loop of `GenerateFromCFG`:
the timeline being built (rows plus the settings reachable through the
`Set...` calls the loop makes), the margins accumulator, and the loop's own
`currentEvent` / `currentSection` / `lineNum` variables. -/
structure CfgState where
  rows : List Row := []
  widthPx : Int := 1000
  numTicks : Int := 8
  tickHeight : Int := 5
  svgId : String := ""
  margins : Margins := {}
  setMargins : Bool := false
  currentEvent : Option Event := none
  currentSection : String := ""
  lineNum : Nat := 0
  deriving DecidableEq, Repr

/-- Outcome of a parser step or run: success, a returned error, or a Go
runtime panic (`crash`). -/
inductive ParseOutcome (α : Type) where
  | ok (val : α)
  | err (msg : String)
  | crash
  deriving DecidableEq, Repr

/-- The no-row error of `GenerateFromCFG` (cli lines 110 and 225):
`"error at line %d, cannot add an event without creating a row first"`. -/
def noRowMsg (n : Nat) : String :=
  "error at line " ++ toString n ++ ", cannot add an event without creating a row first"

/-- `Row.AddEvent` on the last row (`tl.GetLastRow().AddEvent(...)`);
unchanged on an empty list (callers guard that case). -/
def addEventLast : List Row → Event → List Row
  | [], _ => []
  | [r], e => [{ r with events := r.events ++ [e] }]
  | r :: rest, e => r :: addEventLast rest e

/-- One iteration of the line loop of `GenerateFromCFG` (cli lines 95-216),
over the already-trimmed classification the source performs: skip blanks
and `#` comments; on a `@` marker first flush any pending event into the
last row (erroring when there is none), then switch section and perform the
`@row`/`@era`/`@task` action; otherwise require `key=value` and interpret
it against the current section. -/
def processLine (parseDur parseTm : String → Option Int) (st : CfgState)
    (raw : String) : ParseOutcome CfgState :=
  let lineNum := st.lineNum + 1
  let line := goTrimSpace raw
  match line.toList with
  | [] => .ok { st with lineNum := lineNum }
  | c0 :: _ =>
    if c0 = '#' then .ok { st with lineNum := lineNum }
    else
      let parts := goSplit line ' '
      if c0 = '@' then
        let flushed : ParseOutcome CfgState :=
          match st.currentEvent with
          | some ev =>
            match st.rows.getLast? with
            | none => .err (noRowMsg lineNum)
            | some _ =>
              .ok { st with rows := addEventLast st.rows ev, currentEvent := none }
          | none => .ok st
        match flushed with
        | .ok st1 =>
          let currentSection := parts.headD ""
          if currentSection = "@row" then
            let height := parseIntDefault parts 1 30
            let separator := parseIntDefault parts 2 5
            .ok { st1 with
                    currentSection := currentSection, lineNum := lineNum,
                    rows := st1.rows ++
                      [{ height := height, separatorHeight := separator, events := [] }] }
          else if currentSection = "@era" then
            .ok { st1 with currentSection := currentSection, lineNum := lineNum, currentEvent := some { Type' := .era } }
          else if currentSection = "@task" then
            .ok { st1 with currentSection := currentSection, lineNum := lineNum, currentEvent := some { Type' := .task } }
          else
            .ok { st1 with currentSection := currentSection, lineNum := lineNum }
        | other => other
      else
        match goCut line with
        | none => .err ("unknown value at line " ++ toString lineNum)
        | some (k, v) =>
          let key := goTrimSpace k
          let val := goTrimSpace v
          if st.currentSection = "@timeline" then
            if key = "width" ∨ key = "num_ticks" ∨ key = "tick_height" ∨
                key = "margin_top" ∨ key = "margin_bottom" ∨ key = "margin_left" ∨
                key = "margin_right" then
              match goAtoi val with
              | none =>
                -- Go wraps the strconv.Atoi error text; abbreviated here.
                .err ("error at line " ++ toString lineNum ++ ": invalid number")
              | some x =>
                if key = "width" then .ok { st with lineNum := lineNum, widthPx := x }
                else if key = "num_ticks" then .ok { st with lineNum := lineNum, numTicks := x }
                else if key = "tick_height" then .ok { st with lineNum := lineNum, tickHeight := x }
                else if key = "margin_top" then
                  .ok { st with lineNum := lineNum, setMargins := true, margins := { st.margins with top := x } }
                else if key = "margin_right" then
                  .ok { st with lineNum := lineNum, setMargins := true, margins := { st.margins with right := x } }
                else if key = "margin_bottom" then
                  .ok { st with lineNum := lineNum, setMargins := true, margins := { st.margins with bottom := x } }
                else
                  .ok { st with lineNum := lineNum, setMargins := true, margins := { st.margins with left := x } }
            else if key = "id" then .ok { st with lineNum := lineNum, svgId := val }
            else .err ("unknown property '" ++ key ++ "' at line " ++ toString lineNum)
          else if st.currentSection = "@row" then
            .err ("error at line " ++ toString lineNum ++ ", row has no configuration options")
          else if st.currentSection = "@task" ∨ st.currentSection = "@era" then
            match st.currentEvent with
            | none => .crash
            | some ev =>
              if key = "id" then
                .ok { st with lineNum := lineNum, currentEvent := some { ev with ID := val } }
              else if key = "class" then
                .ok { st with lineNum := lineNum, currentEvent := some { ev with Class := val } }
              else if key = "text" then
                .ok { st with lineNum := lineNum, currentEvent := some { ev with Text := val } }
              else if key = "title" then
                .ok { st with lineNum := lineNum, currentEvent := some { ev with Title := val } }
              else if key = "duration" then
                match parseDur val with
                | none =>
                  .err ("error at line " ++ toString lineNum ++ " while parsing duration of event")
                | some d =>
                  .ok { st with lineNum := lineNum, currentEvent := some { ev with Duration := d } }
              else if key = "time" then
                match parseTm val with
                | none => .err ("unrecognized time format: " ++ val)
                | some tv =>
                  .ok { st with lineNum := lineNum, currentEvent := some { ev with Time := tv } }
              else
                .err ("unknown event property '" ++ key ++ "' at line " ++ toString lineNum)
          else .err ("unknown section: " ++ st.currentSection)

/-- The end-of-input step of `GenerateFromCFG` (cli lines 222-228), exactly
as written: `row := tl.GetLastRow(); if row == nil { return error };
row.AddEvent(*currentEvent)`.  The last line dereferences `currentEvent`
without a nil check, so when no event is pending and a row exists the
result is a runtime panic (`crash`). -/
def finalizeCfg (st : CfgState) : ParseOutcome CfgState :=
  match st.rows.getLast? with
  | none => .err (noRowMsg st.lineNum)
  | some _ =>
    match st.currentEvent with
    | some ev => .ok { st with rows := addEventLast st.rows ev, currentEvent := none }
    | none => .crash

/-- The parsing part of `GenerateFromCFG`: fold the line loop over the
input lines (a returned error aborts immediately), then run the end-of-
input step.  The subsequent `SetMargins`/`SetStyle`/`Generate` calls are
outside the parsing contract of claim C3. -/
def runCfgParser (parseDur parseTm : String → Option Int)
    (lines : List String) : ParseOutcome CfgState :=
  match lines.foldl
      (fun acc l =>
        match acc with
        | .ok st => processLine parseDur parseTm st l
        | other => other)
      (ParseOutcome.ok ({} : CfgState)) with
  | .ok st => finalizeCfg st
  | other => other

/-- A literal parser oracle that always fails; the claim-C3 runs never
reach a duration/time literal. -/
def noParse : String → Option Int := fun _ => none

/-! ### Auxiliary predicate-style definitions and concrete inputs -/

/-- Sum of the durations of a list of events. -/
def sumDur : List Event → Int
  | [] => 0
  | e :: rest => e.Duration + sumDur rest

/-- Sum of `sumDur` over rows. -/
def sumDurRows : List Row → Int
  | [] => 0
  | r :: rest => sumDur r.events + sumDurRows rest

/-- Some row has some event satisfying `p`. -/
def anyEvent (rows : List Row) (p : Event → Bool) : Bool :=
  rows.any (fun r => r.events.any p)

/-- The per-tick facts of claim C5 as amended: `numTicks + 1` marks; the
time of tick `i` is `(maxSpan / numTicks) * i` with integer (truncating)
division; `x = leftMargin + contentWidth * time / maxSpan`; the endpoint
ticks `i = 0` and `i = numTicks` rise to the top margin while interior
ticks straddle the axis (`topY = marginTop + contentHeight`,
`bottomY = topY + 2 * tickHeight` around the axis line). -/
def TickFacts (t : Timeline) (res : Resolved) : Prop :=
  (drawTicks t res).length = t.numTicks.toNat + 1 ∧
    ∀ i : Nat, i < t.numTicks.toNat + 1 →
      (drawTicks t res)[i]? =
        some { time := res.maxDuration / t.numTicks * (i : Int),
               x := t.marginLeft +
                 res.contentWidth * ((res.maxDuration / t.numTicks * (i : Int) : Int) : ℚ) /
                   (res.maxDuration : ℚ),
               topY := if i = 0 ∨ (i : Int) = t.numTicks then t.marginTop
                 else t.marginTop + res.contentHeight,
               bottomY := t.marginTop + res.contentHeight + 2 * t.tickHeight }

/-- A task event with only duration and (possibly zero) time set, as the
library caller builds them. -/
def mkTask (d tm : Int) : Event := { Type' := .task, Duration := d, Time := tm }

/-- Replace the rows of a timeline, keeping its configuration. -/
def withRows (t : Timeline) (rs : List Row) : Timeline := { t with rows := rs }

/-- Claim C9's row in absolute mode: two Tasks of 4s and 3s with explicit
start times `T0` and `T0 + 4s` (nanoseconds). -/
def twoTaskRowAbs (h s T0 : Int) : Row :=
  { height := h, separatorHeight := s,
    events := [mkTask 4000000000 T0, mkTask 3000000000 (T0 + 4000000000)] }

/-- Claim C9's row in sequential mode: the same two Tasks with no start
times. -/
def twoTaskRowSeq (h s : Int) : Row :=
  { height := h, separatorHeight := s,
    events := [mkTask 4000000000 0, mkTask 3000000000 0] }

/-- Claim C1's failing input: an absolute-mode timeline — every event sets
a start time — whose last row happens to hold no events. -/
def tlC1 : Timeline :=
  { rows :=
      [{ height := 30, separatorHeight := 5,
         events := [{ Type' := .task, Duration := 4, Time := 100 },
                    { Type' := .task, Duration := 3, Time := 106 }] },
       { height := 30, separatorHeight := 5, events := [] }] }

/-- Claim C2's failing input: same shape as `tlC1` with different times. -/
def tlC2 : Timeline :=
  { rows :=
      [{ height := 30, separatorHeight := 5,
         events := [{ Type' := .task, Duration := 4, Time := 200 },
                    { Type' := .task, Duration := 3, Time := 206 }] },
       { height := 30, separatorHeight := 5, events := [] }] }

/-- A nonempty timeline whose only event has duration zero (for claim C4:
it fails with the same error as the zero-row timeline). -/
def tlAllZero : Timeline :=
  { rows := [{ height := 30, separatorHeight := 5, events := [{ Duration := 0 }] }] }

/-- Claim C5's input: one 10-unit event, three ticks requested. -/
def tlC5 : Timeline :=
  { rows := [{ height := 30, separatorHeight := 5, events := [{ Duration := 10 }] }],
    numTicks := 3 }

/-- The resolved quantities of `tlC5.setup`. -/
def resC5 : Resolved :=
  { tickLabelMargin := 15, maxDuration := 10, contentHeight := 35, earliest := 0,
    totalHeight := 85, contentWidth := 10, totalWidth := 50 }

/-- Claim C6's witness input: the repository's own negative-duration test
model (rows4 of svgtimeline_test.go: durations 10s and −3s). -/
def tlC6w : Timeline :=
  { rows :=
      [{ height := 30, separatorHeight := 5,
         events := [{ Class := "ctl-e-long", Text := "Long", Duration := 10000000000 },
                    { Class := "ctl-e-long", Text := "Short", Duration := -3000000000 }] }] }

/-- Claim C7's counterexample input: mixed time usage AND a negative
duration. -/
def tlC7bad : Timeline :=
  { rows :=
      [{ height := 30, separatorHeight := 5,
         events := [{ Duration := -1 }, { Duration := 1, Time := 100 }] }] }

/-- Claim C7's witness input: the repository's own mixed-times test model
(rows3 of svgtimeline_test.go), nonnegative durations. -/
def tlC7w : Timeline :=
  { rows :=
      [{ height := 30, separatorHeight := 5,
         events := [{ Class := "ctl-e-long", Text := "Long", Duration := 10000000000,
                      Time := 100 },
                    { Class := "ctl-e-long", Text := "Short", Duration := 3000000000 }] }] }

/-- Claim C8's failing input: an event whose identifier contains a reserved
markup character. -/
def evC8 : Event := { ID := "ev\"1", Title := "a<b", Duration := 1 }

/-- Claim C10's input: a one-row timeline. -/
def tlC10 : Timeline := { rows := [{ height := 30, separatorHeight := 5 }] }

/-! ## Shared lemmas about the validation loop -/

/-- The only error the validation loop can produce is the
negative-duration one. -/
theorem scanRowEvents_error_eq (events : List Event) (acc : Bool × Bool × Int)
    (m : String) (h : scanRowEvents events acc = Except.error m) :
    m = negativeDurationMsg := by
  induction events generalizing acc with
  | nil => simp [scanRowEvents] at h
  | cons e rest ih =>
    by_cases hd : e.Duration < 0
    · simp [scanRowEvents, hd] at h
      exact h.symm
    · by_cases ht : e.Time = 0
      · simp [scanRowEvents, hd, ht] at h
        exact ih _ h
      · simp [scanRowEvents, hd, ht] at h
        exact ih _ h

/-- Row-level version of `scanRowEvents_error_eq`. -/
theorem scanEvents_error_eq (rows : List Row) (acc : Bool × Bool × Int)
    (m : String) (h : scanEvents rows acc = Except.error m) :
    m = negativeDurationMsg := by
  induction rows generalizing acc with
  | nil => simp [scanEvents] at h
  | cons r rest ih =>
    rw [scanEvents] at h
    cases hr : scanRowEvents r.events acc with
    | ok acc2 =>
      rw [hr] at h
      exact ih _ h
    | error m2 =>
      rw [hr] at h
      cases h
      exact scanRowEvents_error_eq _ _ _ hr

/-- A run over events all of nonnegative duration never errors and
accumulates exactly the two "any" flags and the duration sum. -/
theorem scanRowEvents_nonneg (events : List Event) (acc : Bool × Bool × Int)
    (h : ∀ e ∈ events, 0 ≤ e.Duration) :
    scanRowEvents events acc =
      Except.ok (acc.1 || events.any (fun e => e.Time != 0),
        acc.2.1 || events.any (fun e => e.Time == 0),
        acc.2.2 + sumDur events) := by
  induction events generalizing acc with
  | nil => simp [scanRowEvents, sumDur]
  | cons e rest ih =>
    have hd : ¬ e.Duration < 0 := by
      have := h e (by simp)
      omega
    have hrest : ∀ x ∈ rest, 0 ≤ x.Duration := fun x hx => h x (by simp [hx])
    by_cases ht : e.Time = 0
    · have ht1 : (e.Time == 0) = true := by simpa using ht
      have ht2 : (e.Time != 0) = false := by simp [bne, ht1]
      rw [scanRowEvents, if_neg hd, if_pos ht, ih _ hrest]
      simp [ht1, ht2, sumDur, Bool.or_assoc, Int.add_assoc]
    · have ht1 : (e.Time == 0) = false := by simpa using ht
      have ht2 : (e.Time != 0) = true := by simp [bne, ht1]
      rw [scanRowEvents, if_neg hd, if_neg ht, ih _ hrest]
      simp [ht1, ht2, sumDur, Bool.or_assoc, Int.add_assoc]

/-- Row-level version of `scanRowEvents_nonneg`. -/
theorem scanEvents_nonneg (rows : List Row) (acc : Bool × Bool × Int)
    (h : ∀ r ∈ rows, ∀ e ∈ r.events, 0 ≤ e.Duration) :
    scanEvents rows acc =
      Except.ok (acc.1 || anyEvent rows (fun e => e.Time != 0),
        acc.2.1 || anyEvent rows (fun e => e.Time == 0),
        acc.2.2 + sumDurRows rows) := by
  induction rows generalizing acc with
  | nil => simp [scanEvents, anyEvent, sumDurRows]
  | cons r rest ih =>
    have hr : ∀ e ∈ r.events, 0 ≤ e.Duration := h r (by simp)
    have hrest : ∀ x ∈ rest, ∀ e ∈ x.events, 0 ≤ e.Duration :=
      fun x hx => h x (by simp [hx])
    rw [scanEvents, scanRowEvents_nonneg _ _ hr]
    refine (ih _ hrest).trans ?_
    simp [anyEvent, sumDurRows, Bool.or_assoc, Int.add_assoc]

/-- Some event has a negative duration: the loop returns the
negative-duration error. -/
theorem scanRowEvents_neg (events : List Event) (acc : Bool × Bool × Int)
    (h : ∃ e ∈ events, e.Duration < 0) :
    scanRowEvents events acc = Except.error negativeDurationMsg := by
  induction events generalizing acc with
  | nil => simp at h
  | cons e rest ih =>
    by_cases hd : e.Duration < 0
    · simp [scanRowEvents, hd]
    · have hrest : ∃ x ∈ rest, x.Duration < 0 := by
        rcases h with ⟨x, hx, hneg⟩
        rcases List.mem_cons.mp hx with rfl | hmem
        · exact absurd hneg hd
        · exact ⟨x, hmem, hneg⟩
      by_cases ht : e.Time = 0
      · rw [scanRowEvents, if_neg hd, if_pos ht]
        exact ih _ hrest
      · rw [scanRowEvents, if_neg hd, if_neg ht]
        exact ih _ hrest

/-- Row-level version of `scanRowEvents_neg`. -/
theorem scanEvents_neg (rows : List Row) (acc : Bool × Bool × Int)
    (h : ∃ r ∈ rows, ∃ e ∈ r.events, e.Duration < 0) :
    scanEvents rows acc = Except.error negativeDurationMsg := by
  induction rows generalizing acc with
  | nil => simp at h
  | cons r rest ih =>
    rcases h with ⟨x, hx, hex⟩
    rcases List.mem_cons.mp hx with rfl | hmem
    · rw [scanEvents, scanRowEvents_neg _ _ hex]
    · rw [scanEvents]
      cases hr : scanRowEvents r.events acc with
      | ok acc2 =>
        exact ih _ ⟨x, hmem, hex⟩
      | error m2 =>
        exact congrArg Except.error (scanRowEvents_error_eq _ _ _ hr)

/-! ## The claims -/

/-- Claim C10: `GetRowByIndex` is claimed total — the i-th row for
`0 ≤ i < len`, nil otherwise including negative i, never faulting.  The
code only guards `i >= len(t.rows)`, so a negative index reaches
`t.rows[i]` and panics (the `none` outcome): the claim's "nil for negative
i, never faulting" is exactly what the code fails to do, against
`GetRowByIndex`'s own doc comment ("returns the row at the index or nil if
not found").  For indices at or above the length the code does return nil
(`some none`), and in range it returns the row. -/
theorem c10_getRowByIndex :
    Timeline.GetRowByIndex tlC10 (-1) = none ∧
    Timeline.GetRowByIndex tlC10 0 = some (some { height := 30, separatorHeight := 5 }) ∧
    Timeline.GetRowByIndex tlC10 5 = some none := by
  refine ⟨rfl, ?_, rfl⟩
  simp [Timeline.GetRowByIndex, goIndex, tlC10]

/-- Claim C8: all user-supplied text, including per-event identifiers, is
claimed to be emitted with the five reserved markup characters escaped.
The string-emission `drawEvent` (svgtimeline.go lines 790-802) writes the
event identifier raw: for `ID = ev"1` the emitted group tag contains the
unescaped quote, although the same function escapes the tooltip and
`escapeXML` would have produced `ev&quot;1`. -/
theorem c8_eventIdUnescaped :
    drawEventOpenTag evC8 = "<g id=\"ev\"1\" class=\"tl-event\">\n" ∧
    escapeXML evC8.ID = "ev&quot;1" ∧
    drawEventTitleTag evC8 = "<title>a&lt;b</title>" := ⟨rfl, rfl, rfl⟩

/-- Claim C3: at end of input the parser is claimed to flush a pending
event if one exists and to finish without error otherwise.  The final step
(cli lines 222-228) is unguarded: on input consisting of the single line
`@row` there is no pending event, yet the code dereferences the nil
`currentEvent` and crashes; on input `@timeline` (no row, no pending
event) it returns the line-numbered no-row error even though nothing needed
flushing. -/
theorem c3_finalFlushUnguarded :
    runCfgParser noParse noParse ["@row"] = ParseOutcome.crash ∧
    runCfgParser noParse noParse [("@timeline")] = ParseOutcome.err (noRowMsg 1) :=
  ⟨rfl, rfl⟩

/-- Claim C4, counterexample: a zero-row timeline is claimed to fail with a
distinct fourth `EmptyTimelineError` check.  In the code, `setup` on the
empty timeline returns exactly the zero-total-duration error — the same
failure as a nonempty all-zero-duration model — so no distinct fourth
failure kind exists. -/
theorem c4_counterexample :
    Timeline.setup NewTimeline = Except.error noPositiveDurationMsg ∧
    Timeline.setup tlAllZero = Except.error noPositiveDurationMsg ∧
    NewTimeline.rows = [] ∧ tlAllZero.rows ≠ [] := by
  refine ⟨rfl, rfl, rfl, ?_⟩
  simp [tlAllZero]

/-- Claim C4 as amended: a Timeline with zero rows fails generation and
produces no output, but through the zero-total-duration check (the third
check); the code has no separate `EmptyTimelineError`. -/
theorem c4_amended (t : Timeline) (hrows : t.rows = []) :
    t.Generate = Except.error noPositiveDurationMsg := by
  simp [Timeline.Generate, Timeline.setup, scanEvents, hrows]

/-- Witness for `c4_amended` at the default empty timeline. -/
theorem c4_amended_witness :
    NewTimeline.rows = [] ∧ NewTimeline.Generate = Except.error noPositiveDurationMsg :=
  ⟨rfl, c4_amended NewTimeline rfl⟩

/-- Claim C2: `maxSpan` is claimed to be the maximum over rows of
`max(sum of Durations, max over timed events of (StartTime − origin) +
Duration)` with origin the earliest StartTime across the timeline.  On
`tlC2` — all events timed (StartTimes 200 and 206), last row empty — the
claim's origin is 200 and the claim's maxSpan is `max(4+3, 6+3) = 9`, but
the code computes 7: `Timeline.StartTime` resets its accumulator to the
zero sentinel on the event-less row (contradicting its own doc comment
"the earliest time that is currently set"), which disables the
by-StartTime branch of `Row.TotalDuration`. -/
theorem c2_maxSpanDiverges :
    Timeline.MaxDuration tlC2 = 7 ∧ claimOrigin tlC2 = some 200 ∧
    claimMaxSpan tlC2 = 9 ∧ (7 : Int) ≠ 9 := by decide

/-- Claim C1: in absolute mode every drawn x is claimed to derive from the
event's own StartTime: `x = leftMargin + scale × (StartTime − origin)`,
so for `tlC1` (StartTimes 100 and 106, durations 4 and 3, one trailing
event-less row) the claim forces `x₂ − x₁ = scale × 6` and
`width₂ = scale × 3`, i.e. `(x₂ − x₁) · 3 = width₂ · 6`.  The code draws
`[(10, 4), (14, 3)]` — placement by the sequential cursor, because
`Timeline.StartTime` was reset to the zero sentinel by the event-less row
— and `(14 − 10) · 3 = 12 ≠ 18 = 3 · 6`: no positive scale satisfies the
claim. -/
theorem c1_absoluteModeDiverges :
    generatedRects tlC1 = [(10, 4), (14, 3)] ∧
    claimOrigin tlC1 = some 100 ∧
    ¬ ((14 - 10 : ℚ) * 3 = 3 * ((106 - 100 : Int) : ℚ)) := by
  refine ⟨?_, by decide, by norm_num⟩
  simp [generatedRects, Timeline.Generate, Timeline.setup, scanEvents, scanRowEvents,
    drawRows, drawEventGeom, Timeline.MaxDuration, Timeline.StartTime, Row.StartTime,
    Row.TotalDuration, Timeline.TotalRowHeight, tlC1]
  norm_num

/-- Claim C5, counterexample: the time of tick i is claimed to equal
`maxSpan × i / numTicks` exactly (so the last tick sits at `maxSpan`).
With `maxSpan = 10` and `numTicks = 3` the code's integer division yields
tick times `[0, 3, 6, 9]`, while the claim's exact times are
`[0, 10/3, 20/3, 10]`: the lists differ, and the last tick sits at 9, not
at `maxSpan = 10`. -/
theorem c5_counterexample :
    (generatedTicks tlC5).map Tick.time = [0, 3, 6, 9] ∧
    claimTickTimes (Timeline.MaxDuration tlC5) tlC5.numTicks = [0, 10/3, 20/3, 10] ∧
    ((generatedTicks tlC5).map (fun k => ((k.time : ℚ)))) ≠
      claimTickTimes (Timeline.MaxDuration tlC5) tlC5.numTicks := by
  have h1 : (generatedTicks tlC5).map Tick.time = [0, 3, 6, 9] := by
    simp [generatedTicks, Timeline.Generate, Timeline.setup, scanEvents, scanRowEvents,
      drawTicks, Timeline.MaxDuration, Timeline.StartTime, Row.StartTime,
      Row.TotalDuration, Timeline.TotalRowHeight, tlC5, List.range_succ]
  have h2 : claimTickTimes (Timeline.MaxDuration tlC5) tlC5.numTicks
      = [0, 10/3, 20/3, 10] := by
    simp [claimTickTimes, Timeline.MaxDuration, Timeline.StartTime, Row.StartTime,
      Row.TotalDuration, tlC5, List.range_succ]
    norm_num
  refine ⟨h1, h2, ?_⟩
  have h3 : ((generatedTicks tlC5).map (fun k => ((k.time : ℚ)))) = [0, 3, 6, 9] := by
    have h4 := congrArg (List.map (fun z : Int => (z : ℚ))) h1
    simpa [List.map_map, Function.comp] using h4
  rw [h3, h2]
  norm_num

/-- Claim C6: any event with negative duration makes generation fail with
the negative-duration error (validation order 1: the per-event check
returns during the scan, before the mixed-time-mode and zero-total-duration
checks are even reached) and produce no output. -/
theorem c6_negativeDuration (t : Timeline)
    (h : ∃ r ∈ t.rows, ∃ e ∈ r.events, e.Duration < 0) :
    t.setup = Except.error negativeDurationMsg ∧
    t.Generate = Except.error negativeDurationMsg := by
  have hs : t.setup = Except.error negativeDurationMsg := by
    rw [Timeline.setup, scanEvents_neg _ _ h]
  refine ⟨hs, ?_⟩
  rw [Timeline.Generate, hs]

/-- Witness for `c6_negativeDuration` at the repository's own
negative-duration test model. -/
theorem c6_negativeDuration_witness :
    (∃ r ∈ tlC6w.rows, ∃ e ∈ r.events, e.Duration < 0) ∧
    tlC6w.setup = Except.error negativeDurationMsg ∧
    tlC6w.Generate = Except.error negativeDurationMsg :=
  ⟨by decide, c6_negativeDuration tlC6w (by decide)⟩

/-- Claim C7 as amended: mixed StartTime usage makes generation fail with
the inconsistent-time-mode error and produce no output — regardless of
rows and kinds — provided no event has a negative duration (otherwise the
negative-duration check fires first; see `c7_counterexample`). -/
theorem c7_amended (t : Timeline)
    (hpos : ∀ r ∈ t.rows, ∀ e ∈ r.events, 0 ≤ e.Duration)
    (ht : ∃ r ∈ t.rows, ∃ e ∈ r.events, e.Time ≠ 0)
    (hu : ∃ r ∈ t.rows, ∃ e ∈ r.events, e.Time = 0) :
    t.setup = Except.error inconsistentTimeMsg ∧
    t.Generate = Except.error inconsistentTimeMsg := by
  have hT : anyEvent t.rows (fun e => e.Time != 0) = true := by
    simp only [anyEvent, List.any_eq_true, bne_iff_ne]
    rcases ht with ⟨r, hr, e, he, hne⟩
    exact ⟨r, hr, e, he, hne⟩
  have hU : anyEvent t.rows (fun e => e.Time == 0) = true := by
    simp only [anyEvent, List.any_eq_true, beq_iff_eq]
    rcases hu with ⟨r, hr, e, he, hz⟩
    exact ⟨r, hr, e, he, hz⟩
  have hs : t.setup = Except.error inconsistentTimeMsg := by
    rw [Timeline.setup, scanEvents_nonneg _ _ hpos]
    simp [hT, hU]
  refine ⟨hs, ?_⟩
  rw [Timeline.Generate, hs]

/-- Witness for `c7_amended` at the repository's own mixed-times test
model. -/
theorem c7_amended_witness :
    (∀ r ∈ tlC7w.rows, ∀ e ∈ r.events, 0 ≤ e.Duration) ∧
    (∃ r ∈ tlC7w.rows, ∃ e ∈ r.events, e.Time ≠ 0) ∧
    (∃ r ∈ tlC7w.rows, ∃ e ∈ r.events, e.Time = 0) ∧
    tlC7w.setup = Except.error inconsistentTimeMsg ∧
    tlC7w.Generate = Except.error inconsistentTimeMsg :=
  ⟨by decide, by decide, by decide,
    c7_amended tlC7w (by decide) (by decide) (by decide)⟩

/-- Claim C7, counterexample: a model that mixes set and unset StartTimes
but also contains a negative duration fails with the negative-duration
error, not the inconsistent-time-mode error — so "for every model [with
mixed StartTimes] generation fails with the InconsistentTimeModeError
failure kind" is false as stated. -/
theorem c7_counterexample :
    Timeline.setup tlC7bad = Except.error negativeDurationMsg ∧
    (∃ r ∈ tlC7bad.rows, ∃ e ∈ r.events, e.Time ≠ 0) ∧
    (∃ r ∈ tlC7bad.rows, ∃ e ∈ r.events, e.Time = 0) ∧
    negativeDurationMsg ≠ inconsistentTimeMsg :=
  ⟨rfl, by decide, by decide, by decide⟩

/-- Claim C5 as amended: under a successful `setup` with `numTicks > 0` and
`maxSpan > 0`, the axis generator emits exactly `numTicks + 1` ticks; the
time of tick i is `(maxSpan / numTicks) × i` with integer (truncating)
division — so ticks are evenly spaced by that quantum, but the last tick
sits at `maxSpan` only when `numTicks` divides `maxSpan`; each tick is at
`x = leftMargin + contentWidth × time / maxSpan`; and the endpoint ticks
`i = 0` and `i = numTicks` rise to the top margin while interior ticks
straddle the axis line. -/
theorem c5_amended (t : Timeline) (res : Resolved)
    (_hsetup : t.setup = Except.ok res)
    (hn : 0 < t.numTicks) (hm : 0 < res.maxDuration) :
    TickFacts t res := by
  unfold TickFacts
  rw [drawTicks, if_pos (⟨hn, hm⟩ : 0 < t.numTicks ∧ 0 < res.maxDuration)]
  constructor
  · simp
  · intro i hi
    rw [List.getElem?_map, List.getElem?_range hi, Option.map_some']
    simp only [Option.some.injEq, Tick.mk.injEq, true_and]
    refine ⟨?_, by ring⟩
    split
    · rfl
    · ring

/-- Witness for `c5_amended` at `tlC5`. -/
theorem c5_amended_witness :
    tlC5.setup = Except.ok resC5 ∧ 0 < tlC5.numTicks ∧ 0 < resC5.maxDuration ∧
    TickFacts tlC5 resC5 := by
  have hsetup : tlC5.setup = Except.ok resC5 := by
    simp [Timeline.setup, scanEvents, scanRowEvents, Timeline.MaxDuration,
      Timeline.StartTime, Row.StartTime, Row.TotalDuration, Timeline.TotalRowHeight,
      tlC5, resC5]
    norm_num
  exact ⟨hsetup, by decide, by decide,
    c5_amended tlC5 resC5 hsetup (by decide) (by decide)⟩

/-- Evaluation of the sequential-mode side of claim C9: the drawn
`(x, width)` pairs of one row holding two untimed Tasks of 4s and 3s, for
any configuration `t0`. -/
theorem c9_seq_eval (t0 : Timeline) (h s : Int) :
    generatedRects (withRows t0 [twoTaskRowSeq h s]) =
      [(t0.marginLeft, min t0.precision 7000000000 * (4000000000 : ℚ) / 7000000000),
       (t0.marginLeft + min t0.precision 7000000000 * (4000000000 : ℚ) / 7000000000,
        min t0.precision 7000000000 * (3000000000 : ℚ) / 7000000000)] := by
  simp [generatedRects, Timeline.Generate, Timeline.setup, scanEvents, scanRowEvents,
    drawRows, drawEventGeom, Timeline.MaxDuration, Timeline.StartTime, Row.StartTime,
    Row.TotalDuration, Timeline.TotalRowHeight, withRows, twoTaskRowSeq, mkTask]

/-- Evaluation of the absolute-mode side of claim C9: the same two Tasks
with explicit StartTimes `T0` and `T0 + 4s` produce the same pairs, for any
configuration `t0` and any representable instant `T0 > 0`. -/
theorem c9_abs_eval (t0 : Timeline) (h s T0 : Int) (hT0 : 0 < T0) :
    generatedRects (withRows t0 [twoTaskRowAbs h s T0]) =
      [(t0.marginLeft, min t0.precision 7000000000 * (4000000000 : ℚ) / 7000000000),
       (t0.marginLeft + min t0.precision 7000000000 * (4000000000 : ℚ) / 7000000000,
        min t0.precision 7000000000 * (3000000000 : ℚ) / 7000000000)] := by
  have h1 : ¬ (T0 = 0) := by omega
  have h2 : ¬ (T0 + 4000000000 = 0) := by omega
  have h3 : ¬ (T0 + 4000000000 < T0) := by omega
  simp [generatedRects, Timeline.Generate, Timeline.setup, scanEvents, scanRowEvents,
    drawRows, drawEventGeom, Timeline.MaxDuration, Timeline.StartTime, Row.StartTime,
    Row.TotalDuration, Timeline.TotalRowHeight, withRows, twoTaskRowAbs, mkTask,
    h1, h2, h3]

/-- Claim C9: one Row with two Tasks of duration 4s then 3s, under any
fixed configuration, draws the same x and width for both rectangles when
built with explicit StartTimes `T0, T0 + 4s` as when built with no
StartTimes (sequential mode).  `T0 > 0` states that `T0` is a set time
(the zero value is Go's "unset" sentinel). -/
theorem c9_equivalence (t0 : Timeline) (h s T0 : Int) (hT0 : 0 < T0) :
    generatedRects (withRows t0 [twoTaskRowAbs h s T0]) =
      generatedRects (withRows t0 [twoTaskRowSeq h s]) ∧
    (generatedRects (withRows t0 [twoTaskRowSeq h s])).length = 2 := by
  rw [c9_abs_eval t0 h s T0 hT0, c9_seq_eval t0 h s]
  exact ⟨rfl, rfl⟩

/-- Witness for `c9_equivalence` at the default configuration and
`T0 = 1000`. -/
theorem c9_equivalence_witness :
    (0 : Int) < 1000 ∧
    generatedRects (withRows NewTimeline [twoTaskRowAbs 30 5 1000]) =
      generatedRects (withRows NewTimeline [twoTaskRowSeq 30 5]) ∧
    (generatedRects (withRows NewTimeline [twoTaskRowSeq 30 5])).length = 2 :=
  ⟨by decide, c9_equivalence NewTimeline 30 5 1000 (by decide)⟩

end SvgTimeline
